import Mathlib

/-!
Verification of the Skytunes store (`src/store/index.ts`) and URL controller
(`src/controllers/navigationController.ts`).

The TypeScript runtime is modelled shallowly:
* JavaScript objects and arrays carry an explicit reference tag (`ref : Nat`);
  the JS `===` operator on objects/arrays is reference-tag equality, while on
  primitives it is value equality.
* `undefined` and `null` are modelled by the three-valued `JOpt`.
* Each store method that allocates fresh objects draws reference tags from the
  store's allocation counter `nextRef`; freshness of the counter with respect
  to the tags already stored in the state is the predicate `StoreWF`.
* Network calls (`connector.ts`) are passed in as explicit oracle functions;
  their JSON payloads are opaque to the store and are modelled as opaque
  handles where their structure is never inspected.
* DOM side effects (toast alerts, `render`, `window.location`) are outside the
  state and are not modelled; `window.location.hash` is passed/returned as an
  explicit string.
-/

namespace Skytunes

/-- A JavaScript value that may be `undefined`, `null`, or present. -/
inductive JOpt (α : Type) where
  | undef : JOpt α
  | null : JOpt α
  | val : α → JOpt α
deriving DecidableEq, Repr

/-- A JavaScript object: a reference tag plus its field contents. -/
structure JsObj (α : Type) where
  ref : Nat
  body : α
deriving DecidableEq, Repr

/-- A JavaScript array: a reference tag plus its elements. -/
structure JsArr (α : Type) where
  ref : Nat
  items : List α
deriving DecidableEq, Repr

/-- JS `===` on two objects: same reference. -/
def jsObjSeq {α : Type} (a b : JsObj α) : Bool := a.ref == b.ref

/-- JS `===` on two arrays: same reference. -/
def jsArrSeq {α : Type} (a b : JsArr α) : Bool := a.ref == b.ref

/-- JS `===` lifted over `undefined`/`null`, given `===` on present values. -/
def jOptSeq {α : Type} (eq : α → α → Bool) : JOpt α → JOpt α → Bool
  | JOpt.undef, JOpt.undef => true
  | JOpt.null, JOpt.null => true
  | JOpt.val a, JOpt.val b => eq a b
  | _, _ => false

/-- The fields of an `ITrackItem` that the store's logic reads
(`models/index.ts`); the remaining fields are carried by no store branch. -/
structure TrackData where
  Title : String
  FileKey : String
  artistFk : JOpt Int
  favorite : Bool
  queued : Bool
deriving DecidableEq, Repr

/-- A track object as held in `songList` / `displayedTracks`. -/
abbrev Track : Type := JsObj TrackData

/-- The `previous: {view, id}` snapshot object built inside `setState`. -/
structure PrevView where
  view : String
  id : JOpt String
deriving DecidableEq, Repr

/-- The artist-detail row fields the banner uses (`res.row[0]`). -/
structure ArtistRow where
  ID : Int
  Name : String
deriving DecidableEq, Repr

/-- `BannerProps` built by `loadBanner`.  `artistItem` is `res.row[0]`, which
is `undefined` when the row array is empty, hence the `Option`. -/
structure BannerData where
  artistItem : Option ArtistRow
  labelName : String
  titleName : String
  trackCount : Int
deriving DecidableEq, Repr

/-- The `searchResults` object committed by `searchByParam`; the three member
payloads are opaque JSON handles, never inspected by the store. -/
structure SearchTriple where
  music : Nat
  artist : Nat
  album : Nat
deriving DecidableEq, Repr

/-- The application state (`IState`), restricted to the fields the verified
operations read or write.  Field kinds are as in the source: booleans,
strings and numbers are primitives, optional strings are `JOpt String`,
track/string sequences are tagged arrays, and `currentSong`, `banner`,
`searchResults`, `previous` are (optional) tagged objects. -/
structure State where
  loading : Bool
  view : String
  type : String
  page : Int
  count : Int
  announcerEnabled : Bool
  chatType : String
  chatName : String
  chatZip : String
  detailId : JOpt String
  currentSongId : JOpt String
  searchParam : JOpt String
  songList : JsArr Track
  displayedTracks : JsArr Track
  relatedPlaylists : JsArr String
  currentSong : JOpt Track
  banner : JOpt (JsObj BannerData)
  searchResults : JOpt (JsObj SearchTriple)
  previous : JOpt (JsObj PrevView)
deriving DecidableEq, Repr

/-- A `Partial<IState>` argument to `setState`: `none` means the key is absent
from the partial.  No caller ever passes a `previous` key (it is overwritten
unconditionally by `setState` anyway), so it is not part of the partial. -/
structure Updates where
  loading : Option Bool := none
  view : Option String := none
  type : Option String := none
  page : Option Int := none
  count : Option Int := none
  announcerEnabled : Option Bool := none
  chatType : Option String := none
  chatName : Option String := none
  chatZip : Option String := none
  detailId : Option (JOpt String) := none
  currentSongId : Option (JOpt String) := none
  searchParam : Option (JOpt String) := none
  songList : Option (JsArr Track) := none
  displayedTracks : Option (JsArr Track) := none
  relatedPlaylists : Option (JsArr String) := none
  currentSong : Option (JOpt Track) := none
  banner : Option (JOpt (JsObj BannerData)) := none
  searchResults : Option (JOpt (JsObj SearchTriple)) := none
deriving DecidableEq, Repr

/-- The store: current state, the snapshot taken at the last notification
(`previousState`, `none` for the initial empty object `{}`), and the
allocation counter supplying reference tags for newly created objects. -/
structure Store where
  state : State
  previousState : Option State
  nextRef : Nat
deriving DecidableEq, Repr

/-- One key's contribution to `setState`'s change scan:
`this.state[stateKey] !== updates[stateKey]` for a key present in the
partial, `false` for an absent key. -/
def updChanged {α : Type} (uf : Option α) (sf : α) (eq : α → α → Bool) : Bool :=
  match uf with
  | some v => !(eq v sf)
  | none => false

/-- `setState`'s guard (`store/index.ts:90-93`): some key of the partial
differs from the current state under JS `===`. -/
def hasChanges (st : State) (u : Updates) : Bool :=
  updChanged u.loading st.loading (· == ·) ||
  updChanged u.view st.view (· == ·) ||
  updChanged u.type st.type (· == ·) ||
  updChanged u.page st.page (· == ·) ||
  updChanged u.count st.count (· == ·) ||
  updChanged u.announcerEnabled st.announcerEnabled (· == ·) ||
  updChanged u.chatType st.chatType (· == ·) ||
  updChanged u.chatName st.chatName (· == ·) ||
  updChanged u.chatZip st.chatZip (· == ·) ||
  updChanged u.detailId st.detailId (jOptSeq (· == ·)) ||
  updChanged u.currentSongId st.currentSongId (jOptSeq (· == ·)) ||
  updChanged u.searchParam st.searchParam (jOptSeq (· == ·)) ||
  updChanged u.songList st.songList jsArrSeq ||
  updChanged u.displayedTracks st.displayedTracks jsArrSeq ||
  updChanged u.relatedPlaylists st.relatedPlaylists jsArrSeq ||
  updChanged u.currentSong st.currentSong (jOptSeq jsObjSeq) ||
  updChanged u.banner st.banner (jOptSeq jsObjSeq) ||
  updChanged u.searchResults st.searchResults (jOptSeq jsObjSeq)

/-- The merge `{...old, ...partial, previous: {view: old.view, id: old.detailId}}`
(`store/index.ts:96-103`); `prevRef` is the reference tag allocated for the
freshly created `previous` object literal. -/
def mergeState (st : State) (u : Updates) (prevRef : Nat) : State where
  loading := u.loading.getD st.loading
  view := u.view.getD st.view
  type := u.type.getD st.type
  page := u.page.getD st.page
  count := u.count.getD st.count
  announcerEnabled := u.announcerEnabled.getD st.announcerEnabled
  chatType := u.chatType.getD st.chatType
  chatName := u.chatName.getD st.chatName
  chatZip := u.chatZip.getD st.chatZip
  detailId := u.detailId.getD st.detailId
  currentSongId := u.currentSongId.getD st.currentSongId
  searchParam := u.searchParam.getD st.searchParam
  songList := u.songList.getD st.songList
  displayedTracks := u.displayedTracks.getD st.displayedTracks
  relatedPlaylists := u.relatedPlaylists.getD st.relatedPlaylists
  currentSong := u.currentSong.getD st.currentSong
  banner := u.banner.getD st.banner
  searchResults := u.searchResults.getD st.searchResults
  previous := JOpt.val ⟨prevRef, ⟨st.view, st.detailId⟩⟩

/-- The array branch of `hasStateChanged` (`store/index.ts:77-82`): length
mismatch, or some position whose elements differ under JS `!==`. -/
def arrChanged {α : Type} (eq : α → α → Bool) (c p : JsArr α) : Bool :=
  (c.items.length != p.items.length) ||
  (c.items.zip p.items).any (fun ab => !(eq ab.1 ab.2))

/-- `hasStateChanged` (`store/index.ts:71-86`): compares every key of the
current state against the last-notified snapshot; arrays by length plus
pairwise `!==`, everything else by `!==`.  Against the initial empty
snapshot `{}` the comparison always reports a change, because the
never-`undefined` keys (`loading`, `view`, ...) differ from `undefined`. -/
def hasStateChanged (st : State) (prev : Option State) : Bool :=
  match prev with
  | none => true
  | some p =>
    (st.loading != p.loading) ||
    (st.view != p.view) ||
    (st.type != p.type) ||
    (st.page != p.page) ||
    (st.count != p.count) ||
    (st.announcerEnabled != p.announcerEnabled) ||
    (st.chatType != p.chatType) ||
    (st.chatName != p.chatName) ||
    (st.chatZip != p.chatZip) ||
    !(jOptSeq (· == ·) st.detailId p.detailId) ||
    !(jOptSeq (· == ·) st.currentSongId p.currentSongId) ||
    !(jOptSeq (· == ·) st.searchParam p.searchParam) ||
    arrChanged jsObjSeq st.songList p.songList ||
    arrChanged jsObjSeq st.displayedTracks p.displayedTracks ||
    arrChanged (· == ·) st.relatedPlaylists p.relatedPlaylists ||
    !(jOptSeq jsObjSeq st.currentSong p.currentSong) ||
    !(jOptSeq jsObjSeq st.banner p.banner) ||
    !(jOptSeq jsObjSeq st.searchResults p.searchResults) ||
    !(jOptSeq jsObjSeq st.previous p.previous)

/-- `notify` (`store/index.ts:64-69`).  The returned boolean records whether
the listener broadcast ran (each subscribed listener was invoked with the new
state); when it ran, the snapshot is refreshed. -/
def notify (s : Store) : Store × Bool :=
  if hasStateChanged s.state s.previousState then
    ({ s with previousState := some s.state }, true)
  else
    (s, false)

/-- `setState` (`store/index.ts:88-106`): if some key of the partial differs
under `===`, merge (snapshotting `previous` into a freshly allocated object)
and notify; otherwise do nothing.  The boolean is the one returned by
`notify` (whether subscribers were invoked). -/
def setState (s : Store) (u : Updates) : Store × Bool :=
  if hasChanges s.state u then
    notify { state := mergeState s.state u s.nextRef,
             previousState := s.previousState,
             nextRef := s.nextRef + 1 }
  else
    (s, false)

/-- The constructor's initial state (`store/index.ts:32-55`), with the three
modelled empty arrays receiving reference tags 0, 1, 2. -/
def initState : State where
  loading := false
  view := "dash"
  type := "dash"
  page := 1
  count := 1
  announcerEnabled := true
  chatType := "deep"
  chatName := "Milton"
  chatZip := ""
  detailId := JOpt.undef
  currentSongId := JOpt.undef
  searchParam := JOpt.undef
  songList := ⟨0, []⟩
  displayedTracks := ⟨1, []⟩
  relatedPlaylists := ⟨2, []⟩
  currentSong := JOpt.undef
  banner := JOpt.undef
  searchResults := JOpt.undef
  previous := JOpt.undef

/-- A freshly constructed store: `previousState` is the empty object. -/
def initStore : Store where
  state := initState
  previousState := none
  nextRef := 3

/-- JS `Array.prototype.indexOf` on the file-key list, applied to a possibly
`undefined`/`null` `currentSongId`: first index of the key, `-1` when the key
is absent or not a string. -/
def jsIndexOf (keys : List String) : JOpt String → Int
  | JOpt.val k => if k ∈ keys then (keys.indexOf k : Int) else -1
  | _ => -1

/-- `advanceTrack` (`store/index.ts:116-128`): locate `currentSongId` among
the song list's file keys; if `index + direction` is in bounds, commit that
entry as `currentSong`/`currentSongId`, else do nothing. -/
def advanceTrack (s : Store) (direction : Int) : Store :=
  let keys := s.state.songList.items.map (fun t => t.body.FileKey)
  let index := jsIndexOf keys s.state.currentSongId
  let nextIndex := index + direction
  if h : 0 ≤ nextIndex ∧ nextIndex < (s.state.songList.items.length : Int) then
    let song := s.state.songList.items.get ⟨nextIndex.toNat, by omega⟩
    (setState s { currentSong := some (JOpt.val song),
                  currentSongId := some (JOpt.val song.body.FileKey) }).1
  else
    s

/-- Truthiness of `songList[i].queued` (out-of-range reads are `undefined`,
hence falsy). -/
def queuedAt (l : List Track) (i : Nat) : Bool :=
  match l.get? i with
  | some t => t.body.queued
  | none => false

/-- The backward scan of `addToQueue` (`store/index.ts:152-157`): examine
indices `n-1, n-2, ...` and return the first one that is `> index` and holds
a queued track.  (The source loop stops once `i ≤ index`; continuing the
recursion there is equivalent because the `index < i` test fails for every
remaining smaller index.) -/
def scanQueuedDown (l : List Track) (index : Int) : Nat → Option Nat
  | 0 => none
  | n + 1 =>
    if index < (n : Int) ∧ queuedAt l n then some n
    else scanQueuedDown l index n

/-- `addToQueue` (`store/index.ts:138-162`): copy the track with
`queued: true` (a fresh object), splice it into a fresh copy of `songList`
one past the last queued entry after the current track (or right after the
current track when none is queued), and commit via `setState`.  The toast
alert is a DOM side effect outside the model. -/
def addToQueue (s : Store) (track : Track) : Store :=
  let items := s.state.songList.items
  let keys := items.map (fun t => t.body.FileKey)
  let index := jsIndexOf keys s.state.currentSongId
  let queuedTrack : Track := ⟨s.nextRef, { track.body with queued := true }⟩
  let insertIndex : Int :=
    match scanQueuedDown items index items.length with
    | some i => (i : Int) + 1
    | none => index + 1
  let newItems :=
    items.take insertIndex.toNat ++ [queuedTrack] ++ items.drop insertIndex.toNat
  (setState { s with nextRef := s.nextRef + 2 }
      { songList := some ⟨s.nextRef + 1, newItems⟩ }).1

/-- `searchByParam` (`store/index.ts:164-171`): three awaited `getSearch`
calls, then a single `setState`.  A failed fetch rejects the whole method;
the pair's second component is the method's outcome and its first component
is the store afterwards (unchanged when the method rejects, because the only
mutation is the final `setState`). -/
def searchByParam (getSearch : String → String → Except Unit Nat)
    (s : Store) (searchParam : String) : Store × Except Unit Unit :=
  match getSearch "music" searchParam with
  | Except.error e => (s, Except.error e)
  | Except.ok music =>
    match getSearch "artist" searchParam with
    | Except.error e => (s, Except.error e)
    | Except.ok artist =>
      match getSearch "album" searchParam with
      | Except.error e => (s, Except.error e)
      | Except.ok album =>
        ((setState { s with nextRef := s.nextRef + 1 }
            { searchResults := some (JOpt.val ⟨s.nextRef, ⟨music, artist, album⟩⟩),
              searchParam := some (JOpt.val searchParam),
              view := some "search" }).1,
         Except.ok ())

/-- Truthiness of a track's `artistFk` (`!!f.artistFk`): a present, non-zero
number. -/
def jsTruthyFk : JOpt Int → Bool
  | JOpt.val n => n != 0
  | _ => false

/-- `loadBanner` (`store/index.ts:173-189`).  `getArtistDetail` yields
`none` for a response failing the `res && res.row` guard, otherwise the
`res.row` array.  The result's boolean records whether the artist fetch was
issued; the overall `Option` is `none` exactly on the uncaught TypeError
path (`res.row` empty and `titleName` falsy, so `row.Name` is read off
`undefined`).  The `render()` call touches only the DOM. -/
def loadBanner (getArtistDetail : Int → Option (List ArtistRow))
    (s : Store) (titleName : String) (trackCount : Int) :
    Option (Store × Bool) :=
  match s.state.displayedTracks.items.find? (fun f => jsTruthyFk f.body.artistFk) with
  | none => some (s, false)
  | some node =>
    match node.body.artistFk with
    | JOpt.val fk =>
      match getArtistDetail fk with
      | none => some ((setState s { banner := some JOpt.null }).1, true)
      | some rows =>
        match (if titleName == "" then (rows.head?).map (fun r => r.Name)
               else some titleName) with
        | none => none
        | some title =>
          some ((setState { s with nextRef := s.nextRef + 1 }
              { banner := some (JOpt.val
                  ⟨s.nextRef, ⟨rows.head?, s.state.view, title, trackCount⟩⟩) }).1,
            true)
    | _ => some (s, false)

/-- `matchTrack` (`store/index.ts:373-380`): a fresh copy of the track with
`favorite` recomputed from `relatedPlaylists` membership
(`indexOf(fileKey) > -1`). -/
def matchTrack (st : State) (newRef : Nat) (t : Track) : Track :=
  ⟨newRef, { t.body with favorite := decide (t.body.FileKey ∈ st.relatedPlaylists.items) }⟩

/-- JS `String.prototype.replace` with the string pattern `"/"`: only the
first occurrence is replaced. -/
def replaceFirstSlashAux : List Char → List Char
  | [] => []
  | c :: cs => if c = '/' then '*' :: cs else c :: replaceFirstSlashAux cs

/-- `genre.replace("/", "*")` as called by `loadGenre`. -/
def replaceFirstSlash (s : String) : String := ⟨replaceFirstSlashAux s.data⟩

/-- The `related` part of a `getGenreDetail` response. -/
structure GenreRes where
  count : Int
  records : List Track
deriving DecidableEq, Repr

/-- The store visible after a fire-and-forget `loadBanner` tail call: the
banner load's store when it finished, the caller's committed store when the
banner load rejected (its rejection is unawaited and unhandled). -/
def bannerFallback (r : Option (Store × Bool)) (s1 : Store) : Store :=
  match r with
  | some pr => pr.1
  | none => s1

/-- `loadGenre` (`store/index.ts:293-306`): fetch the genre detail under the
slash-substituted key, commit the re-annotated tracks with `view: "genre"`
and `detailId: genre` (the unsubstituted key), then run the banner load
(whose rejection, if any, is unawaited and leaves the first commit in
place).  The second component records the key passed to `getGenreDetail`. -/
def loadGenre (getGenreDetail : String → Int → GenreRes)
    (getArtistDetail : Int → Option (List ArtistRow))
    (s : Store) (genre : String) (page : Int) : Store × String :=
  let fetchKey := replaceFirstSlash genre
  let res := getGenreDetail fetchKey page
  let n := res.records.length
  let tracks := res.records.mapIdx (fun i t => matchTrack s.state (s.nextRef + i) t)
  let s1 := (setState { s with nextRef := s.nextRef + n + 1 }
      { displayedTracks := some ⟨s.nextRef + n, tracks⟩,
        view := some "genre",
        type := some "detail",
        count := some res.count,
        page := some page,
        detailId := some (JOpt.val genre) }).1
  (bannerFallback (loadBanner getArtistDetail s1 genre res.count) s1, fetchKey)

/-- The reference tag of an optional object field, as a singleton list. -/
def jOptObjRef {α : Type} : JOpt (JsObj α) → List Nat
  | JOpt.val o => [o.ref]
  | _ => []

/-- Every reference tag reachable from the state. -/
def stateRefs (st : State) : List Nat :=
  [st.songList.ref, st.displayedTracks.ref, st.relatedPlaylists.ref] ++
  st.songList.items.map (fun t => t.ref) ++
  st.displayedTracks.items.map (fun t => t.ref) ++
  jOptObjRef st.currentSong ++
  jOptObjRef st.banner ++
  jOptObjRef st.searchResults ++
  jOptObjRef st.previous

/-- Allocation-counter sanity: every reference tag stored in the state is
below the allocation counter, so freshly allocated objects are distinct from
every stored one.  Holds for the initial store and is maintained by every
operation; it is assumed where a theorem needs a fresh array or object to be
distinct from a stored one. -/
def StoreWF (s : Store) : Prop :=
  ∀ r ∈ stateRefs s.state, r < s.nextRef

instance (s : Store) : Decidable (StoreWF s) :=
  inferInstanceAs (Decidable (∀ r ∈ stateRefs s.state, r < s.nextRef))

/-- The allow-list of `URLController` (`navigationController.ts:4-16`). -/
def validViews : List String :=
  ["dash", "library", "artists", "albums", "genres", "playlists",
   "album", "artist", "genre", "playlist", "search"]

/-- A JS number that may be `NaN` (the result of `parseInt` on a
non-numeric string). -/
inductive JsNum where
  | nan : JsNum
  | int : Int → JsNum
deriving DecidableEq, Repr

/-- The object returned by `parseURL`. -/
structure ParsedURL where
  view : String
  detailId : JOpt String
  page : JOpt JsNum
deriving DecidableEq, Repr

/-- Decimal value of a digit list. -/
def digitListVal (ds : List Char) : Nat :=
  ds.foldl (fun a c => a * 10 + (c.toNat - Char.toNat '0')) 0

/-- JS `parseInt` restricted to the string shapes that can reach it here: an
optional minus sign followed by a maximal run of decimal digits; no digits
means `NaN`.  (Leading whitespace and a `+` sign never occur in a hash
segment produced or consumed by this controller.) -/
def jsParseInt (s : String) : JsNum :=
  match s.data with
  | '-' :: rest =>
    match rest.takeWhile Char.isDigit with
    | [] => JsNum.nan
    | ds => JsNum.int (-(digitListVal ds : Int))
  | l =>
    match l.takeWhile Char.isDigit with
    | [] => JsNum.nan
    | ds => JsNum.int (digitListVal ds)

/-- `parseURL` (`navigationController.ts:25-39`), with
`window.location.hash` passed explicitly: drop the leading `#`, return the
dashboard view for an empty hash, otherwise split on `/` into view (checked
against the allow-list, falling back to `"dash"`), detail id, and page
(`parseInt` of the third segment when that segment is truthy). -/
def splitSlashAux : List Char → List Char → List String
  | [], acc => [⟨acc.reverse⟩]
  | c :: cs, acc =>
    if c = '/' then ⟨acc.reverse⟩ :: splitSlashAux cs []
    else splitSlashAux cs (c :: acc)

/-- JS `hash.split("/")` with the one-character separator, keeping empty
segments (the result is never the empty list). -/
def jsSplitSlash (s : String) : List String := splitSlashAux s.data []

def parseURL (hash : String) : ParsedURL :=
  let h : String := ⟨hash.data.drop 1⟩
  if h = "" then ⟨"dash", JOpt.undef, JOpt.undef⟩
  else
    let parts := jsSplitSlash h
    let view := (parts.get? 0).getD ""
    let detailId : JOpt String :=
      match parts.get? 1 with
      | some d => JOpt.val d
      | none => JOpt.undef
    let page : JOpt JsNum :=
      match parts.get? 2 with
      | some p => if p = "" then JOpt.undef else JOpt.val (jsParseInt p)
      | none => JOpt.undef
    ⟨if view ∈ validViews then view else "dash", detailId, page⟩

/-- The hash construction of `updateURL` (`navigationController.ts:103-111`):
`#view`, then the detail id if truthy, then the page if truthy and `> 1`,
joined with `/`.  (The guard flags and the conditional write to
`window.location` sit outside the constructed string.) -/
def updateURLHash (view : String) (detailId : JOpt String) (page : Int) : String :=
  let idPart : List String :=
    match detailId with
    | JOpt.val d => if d == "" then [] else [d]
    | _ => []
  let pagePart : List String :=
    if page ≠ 0 ∧ page > 1 then [toString page] else []
  String.intercalate "/" (["#" ++ view] ++ idPart ++ pagePart)

/-- The spec-side reading of `setState`'s gate under true JS `===`: every
key present in the partial is `===` to the current state's value (primitive
identity for scalars and `undefined`/`null`, reference identity for arrays
and objects). -/
structure NoFieldDiffers (st : State) (u : Updates) : Prop where
  loading_eq : ∀ v, u.loading = some v → v = st.loading
  view_eq : ∀ v, u.view = some v → v = st.view
  type_eq : ∀ v, u.type = some v → v = st.type
  page_eq : ∀ v, u.page = some v → v = st.page
  count_eq : ∀ v, u.count = some v → v = st.count
  announcerEnabled_eq : ∀ v, u.announcerEnabled = some v → v = st.announcerEnabled
  chatType_eq : ∀ v, u.chatType = some v → v = st.chatType
  chatName_eq : ∀ v, u.chatName = some v → v = st.chatName
  chatZip_eq : ∀ v, u.chatZip = some v → v = st.chatZip
  detailId_eq : ∀ v, u.detailId = some v → jOptSeq (· == ·) v st.detailId = true
  currentSongId_eq : ∀ v, u.currentSongId = some v → jOptSeq (· == ·) v st.currentSongId = true
  searchParam_eq : ∀ v, u.searchParam = some v → jOptSeq (· == ·) v st.searchParam = true
  songList_eq : ∀ v, u.songList = some v → jsArrSeq v st.songList = true
  displayedTracks_eq : ∀ v, u.displayedTracks = some v → jsArrSeq v st.displayedTracks = true
  relatedPlaylists_eq : ∀ v, u.relatedPlaylists = some v → jsArrSeq v st.relatedPlaylists = true
  currentSong_eq : ∀ v, u.currentSong = some v → jOptSeq jsObjSeq v st.currentSong = true
  banner_eq : ∀ v, u.banner = some v → jOptSeq jsObjSeq v st.banner = true
  searchResults_eq : ∀ v, u.searchResults = some v → jOptSeq jsObjSeq v st.searchResults = true

/-- Value equality of two JS arrays in the sense claimed for `setState`'s
gate: equal length and pairwise `===` elements (reference identity ignored
at the array level). -/
def valueArrEq {α : Type} (eq : α → α → Bool) (a b : JsArr α) : Bool :=
  !(arrChanged eq a b)

/-- The comparison criterion attributed to `setState` by the specification:
no field of the partial differs by value from the current state — primitive
identity for scalars, length plus pairwise element comparison for
sequences. -/
def noFieldDiffersByValueB (st : State) (u : Updates) : Bool :=
  !(updChanged u.loading st.loading (· == ·) ||
    updChanged u.view st.view (· == ·) ||
    updChanged u.type st.type (· == ·) ||
    updChanged u.page st.page (· == ·) ||
    updChanged u.count st.count (· == ·) ||
    updChanged u.announcerEnabled st.announcerEnabled (· == ·) ||
    updChanged u.chatType st.chatType (· == ·) ||
    updChanged u.chatName st.chatName (· == ·) ||
    updChanged u.chatZip st.chatZip (· == ·) ||
    updChanged u.detailId st.detailId (jOptSeq (· == ·)) ||
    updChanged u.currentSongId st.currentSongId (jOptSeq (· == ·)) ||
    updChanged u.searchParam st.searchParam (jOptSeq (· == ·)) ||
    updChanged u.songList st.songList (valueArrEq jsObjSeq) ||
    updChanged u.displayedTracks st.displayedTracks (valueArrEq jsObjSeq) ||
    updChanged u.relatedPlaylists st.relatedPlaylists (valueArrEq (· == ·)) ||
    updChanged u.currentSong st.currentSong (jOptSeq jsObjSeq) ||
    updChanged u.banner st.banner (jOptSeq jsObjSeq) ||
    updChanged u.searchResults st.searchResults (jOptSeq jsObjSeq))

/-- The `previous` snapshot payload currently stored in the state, when one
is present. -/
def prevPayload (st : State) : Option PrevView :=
  match st.previous with
  | JOpt.val o => some o.body
  | _ => none

/-- The invariant of the data model: `currentSongId`, if set, is the file
key of some element of `songList`. -/
def CurrentInList (st : State) : Prop :=
  ∀ k, st.currentSongId = JOpt.val k →
    k ∈ st.songList.items.map (fun t => t.body.FileKey)

lemma updChanged_eq_false_iff {α : Type} (uf : Option α) (sf : α) (eq : α → α → Bool) :
    updChanged uf sf eq = false ↔ ∀ v, uf = some v → eq v sf = true := by
  cases uf <;> simp [updChanged]

/-- The spec-side gate reading coincides with the code's `hasChanges`. -/
lemma noFieldDiffers_iff (st : State) (u : Updates) :
    NoFieldDiffers st u ↔ hasChanges st u = false := by
  rw [hasChanges]
  simp only [Bool.or_eq_false_iff, updChanged_eq_false_iff, beq_iff_eq, and_assoc]
  constructor
  · intro h
    exact ⟨h.loading_eq, h.view_eq, h.type_eq, h.page_eq, h.count_eq,
      h.announcerEnabled_eq, h.chatType_eq, h.chatName_eq, h.chatZip_eq,
      h.detailId_eq, h.currentSongId_eq, h.searchParam_eq, h.songList_eq,
      h.displayedTracks_eq, h.relatedPlaylists_eq, h.currentSong_eq,
      h.banner_eq, h.searchResults_eq⟩
  · rintro ⟨h1, h2, h3, h4, h5, h6, h7, h8, h9, h10, h11, h12, h13, h14,
      h15, h16, h17, h18⟩
    exact ⟨h1, h2, h3, h4, h5, h6, h7, h8, h9, h10, h11, h12, h13, h14,
      h15, h16, h17, h18⟩

/-- The state after `setState`: merged when some key differs under `===`,
untouched otherwise (`notify` never modifies the state itself). -/
lemma setState_fst_state (s : Store) (u : Updates) :
    (setState s u).1.state =
      if hasChanges s.state u then mergeState s.state u s.nextRef else s.state := by
  unfold setState
  by_cases hc : hasChanges s.state u = true
  · simp only [hc, if_true]
    unfold notify
    split <;> rfl
  · simp only [Bool.not_eq_true] at hc
    simp [hc]

lemma jsIndexOf_ge_neg_one (keys : List String) (x : JOpt String) :
    -1 ≤ jsIndexOf keys x := by
  cases x with
  | undef => simp [jsIndexOf]
  | null => simp [jsIndexOf]
  | val k =>
    rw [jsIndexOf]
    split
    · omega
    · omega

lemma jsIndexOf_lt_length (keys : List String) (x : JOpt String) :
    jsIndexOf keys x < (keys.length : Int) := by
  cases x with
  | undef => simp [jsIndexOf]; omega
  | null => simp [jsIndexOf]; omega
  | val k =>
    rw [jsIndexOf]
    split
    · next hm => exact_mod_cast List.indexOf_lt_length.mpr hm
    · omega

lemma jsIndexOf_val_mem (keys : List String) (k : String) (hm : k ∈ keys) :
    jsIndexOf keys (JOpt.val k) = (keys.indexOf k : Int) := by
  rw [jsIndexOf, if_pos hm]

/-- A `none` scan result means no index strictly after `index` holds a
queued track. -/
lemma scanQueuedDown_none (l : List Track) (index : Int) (n : Nat)
    (h : scanQueuedDown l index n = none) :
    ∀ j, j < n → index < (j : Int) → queuedAt l j = false := by
  induction n with
  | zero => intro j hj _; omega
  | succ n ih =>
    rw [scanQueuedDown] at h
    by_cases hc : index < (n : Int) ∧ queuedAt l n = true
    · simp [hc] at h
    · rw [if_neg (by simpa using hc)] at h
      intro j hj hij
      rcases Nat.lt_succ_iff_lt_or_eq.mp hj with hlt | rfl
      · exact ih h j hlt hij
      · rcases Bool.eq_false_or_eq_true (queuedAt l j) with ht | hf
        · exact absurd ⟨hij, ht⟩ hc
        · exact hf

/-- A `some i` scan result is the largest index before `n`, strictly after
`index`, holding a queued track. -/
lemma scanQueuedDown_some (l : List Track) (index : Int) (n i : Nat)
    (h : scanQueuedDown l index n = some i) :
    index < (i : Int) ∧ i < n ∧ queuedAt l i = true ∧
      ∀ j, i < j → j < n → queuedAt l j = false := by
  induction n with
  | zero => exact absurd h (by rw [scanQueuedDown]; exact Option.noConfusion)
  | succ n ih =>
    rw [scanQueuedDown] at h
    by_cases hc : index < (n : Int) ∧ queuedAt l n = true
    · rw [if_pos hc] at h
      obtain rfl : n = i := by injection h
      exact ⟨hc.1, Nat.lt_succ_self n, hc.2, fun j hj hj' => by omega⟩
    · rw [if_neg (by simpa using hc)] at h
      obtain ⟨h1, h2, h3, h4⟩ := ih h
      refine ⟨h1, by omega, h3, fun j hj hj' => ?_⟩
      rcases Nat.lt_succ_iff_lt_or_eq.mp hj' with hlt | rfl
      · exact h4 j hj hlt
      · rcases Bool.eq_false_or_eq_true (queuedAt l j) with ht | hf
        · exact absurd ⟨by omega, ht⟩ hc
        · exact hf

/-- A store that has performed one accepted update since construction
(so that a last-notified snapshot exists). -/
def storeAfterOneUpdate : Store := (setState initStore { view := some "library" }).1

/-- A partial carrying a freshly allocated empty `songList`: value-equal
(same length, vacuously pairwise-equal) to the current one, but a distinct
array reference. -/
def freshEmptySongListUpdate : Updates := { songList := some ⟨1000, []⟩ }

/-- C1, counterexample: a partial in which no field differs by value from
the current state in the claimed sense (primitive identity for scalars,
length plus pairwise element comparison for sequences) is nevertheless
merged by `setState` — the state changes and the subscribers are notified —
because the code's gate compares arrays by reference, not by value. -/
theorem setState_value_gate_counterexample :
    noFieldDiffersByValueB storeAfterOneUpdate.state freshEmptySongListUpdate = true ∧
    (setState storeAfterOneUpdate freshEmptySongListUpdate).2 = true ∧
    (setState storeAfterOneUpdate freshEmptySongListUpdate).1.state ≠
      storeAfterOneUpdate.state := by
  refine ⟨by decide, by decide, by decide⟩

/-- C1, amended: `setState` merges its partial into the current state only
if at least one field of the partial differs from the current state under
JS `===` — primitive identity for scalars, reference identity for sequences
and objects; for every state and every partial in which no field so
differs, `setState` leaves the store unchanged and invokes no subscriber. -/
theorem setState_noop_of_no_field_differs (s : Store) (u : Updates)
    (h : NoFieldDiffers s.state u) : setState s u = (s, false) := by
  have hc : hasChanges s.state u = false := (noFieldDiffers_iff s.state u).mp h
  simp [setState, hc]

/-- Witness for the amended C1 at a concrete store and partial. -/
theorem setState_noop_of_no_field_differs_witness :
    NoFieldDiffers initStore.state { view := some "dash", loading := some false } ∧
    setState initStore { view := some "dash", loading := some false } =
      (initStore, false) := by
  have nfd : NoFieldDiffers initStore.state
      { view := some "dash", loading := some false } := by
    constructor <;> intro v h <;> cases h <;> rfl
  exact ⟨nfd, setState_noop_of_no_field_differs initStore _ nfd⟩

/-- C5: every accepted `setState` call snapshots the pre-merge `view` and
`detailId` into the new state's `previous` field. -/
theorem setState_previous_snapshot (s : Store) (u : Updates)
    (h : ¬ NoFieldDiffers s.state u) :
    prevPayload ((setState s u).1.state) = some ⟨s.state.view, s.state.detailId⟩ := by
  have hc : hasChanges s.state u = true := by
    rcases Bool.eq_false_or_eq_true (hasChanges s.state u) with ht | hf
    · exact ht
    · exact absurd ((noFieldDiffers_iff s.state u).mpr hf) h
  rw [setState_fst_state, if_pos hc]
  rfl

/-- Witness for C5: the P2 instance — `setState({view: "album", detailId:
"5"})` on a state with view `"dash"` and no detail id snapshots
`{view: "dash", id: undefined}`. -/
theorem setState_previous_snapshot_witness :
    ¬ NoFieldDiffers initStore.state
        { view := some "album", detailId := some (JOpt.val "5") } ∧
    prevPayload ((setState initStore
        { view := some "album", detailId := some (JOpt.val "5") }).1.state) =
      some ⟨"dash", JOpt.undef⟩ := by
  have h : ¬ NoFieldDiffers initStore.state
      { view := some "album", detailId := some (JOpt.val "5") } := by
    intro h
    exact absurd (h.view_eq "album" rfl) (by decide)
  exact ⟨h, setState_previous_snapshot initStore _ h⟩

/-- The two-field commit performed by `advanceTrack`: afterwards
`currentSongId` equals the chosen track's file key and `currentSong` is
`===` to the chosen track object (when the gate rejects the update, both
already held). -/
lemma setState_currentSong_commit (s : Store) (song : Track) :
    ((setState s { currentSong := some (JOpt.val song),
                   currentSongId := some (JOpt.val song.body.FileKey) }).1.state.currentSongId
        = JOpt.val song.body.FileKey) ∧
    jOptSeq jsObjSeq
      ((setState s { currentSong := some (JOpt.val song),
                     currentSongId := some (JOpt.val song.body.FileKey) }).1.state.currentSong)
      (JOpt.val song) = true := by
  rw [setState_fst_state]
  by_cases hc : hasChanges s.state
      { currentSong := some (JOpt.val song),
        currentSongId := some (JOpt.val song.body.FileKey) } = true
  · rw [if_pos hc]
    exact ⟨rfl, by simp [mergeState, jOptSeq, jsObjSeq]⟩
  · rw [if_neg hc]
    have hc' : hasChanges s.state
        { currentSong := some (JOpt.val song),
          currentSongId := some (JOpt.val song.body.FileKey) } = false := by
      revert hc
      cases hasChanges s.state
          { currentSong := some (JOpt.val song),
            currentSongId := some (JOpt.val song.body.FileKey) } <;> simp
    have hnfd := (noFieldDiffers_iff s.state _).mpr hc'
    have hsid := hnfd.currentSongId_eq (JOpt.val song.body.FileKey) rfl
    have hsong := hnfd.currentSong_eq (JOpt.val song) rfl
    constructor
    · cases hx : s.state.currentSongId with
      | undef => rw [hx] at hsid; simp [jOptSeq] at hsid
      | null => rw [hx] at hsid; simp [jOptSeq] at hsid
      | val x =>
        rw [hx] at hsid
        simp only [jOptSeq, beq_iff_eq] at hsid
        exact congrArg JOpt.val hsid.symm
    · cases hx : s.state.currentSong with
      | undef => rw [hx] at hsong; simp [jOptSeq] at hsong
      | null => rw [hx] at hsong; simp [jOptSeq] at hsong
      | val o =>
        rw [hx] at hsong
        simp only [jOptSeq, jsObjSeq, beq_iff_eq] at hsong ⊢
        omega

/-- A concrete three-track store: tracks `a.mp3`, `b.mp3`, `c.mp3` with the
middle one current. -/
def advanceDemoStore : Store where
  state := { initState with
    songList := ⟨3, [⟨30, ⟨"A", "a.mp3", JOpt.undef, false, false⟩⟩,
                     ⟨31, ⟨"B", "b.mp3", JOpt.undef, false, false⟩⟩,
                     ⟨32, ⟨"C", "c.mp3", JOpt.undef, false, false⟩⟩]⟩,
    currentSongId := JOpt.val "b.mp3" }
  previousState := none
  nextRef := 40

/-- A concrete store whose `currentSongId` names a key not in the song
list. -/
def lostIdDemoStore : Store where
  state := { initState with
    songList := ⟨3, [⟨30, ⟨"A", "a.mp3", JOpt.undef, false, false⟩⟩,
                     ⟨31, ⟨"B", "b.mp3", JOpt.undef, false, false⟩⟩]⟩,
    currentSongId := JOpt.val "gone.mp3" }
  previousState := none
  nextRef := 40

lemma get_zero_eq_head {α : Type} (l : List α) (h0 : 0 < l.length) (hne : l ≠ []) :
    l.get ⟨0, h0⟩ = l.head hne := by
  cases l with
  | nil => exact absurd rfl hne
  | cons a as => rfl

/-- C3: with the current track located at (first) index `k` of the song
list, `advanceTrack d` moves to the entry at `k + d` when that index is in
bounds — `currentSongId` becomes its file key and `currentSong` becomes
(`===`) that entry — and leaves the store untouched otherwise (no
wraparound). -/
theorem advanceTrack_moves_by_direction (s : Store) (d : Int) (key : String) (k : Nat)
    (h1 : s.state.currentSongId = JOpt.val key)
    (h2 : (s.state.songList.items.map (fun t => t.body.FileKey)).indexOf key = k)
    (h3 : k < s.state.songList.items.length) :
    (∀ t, 0 ≤ (k : Int) + d →
        s.state.songList.items.get? ((k : Int) + d).toNat = some t →
        (advanceTrack s d).state.currentSongId = JOpt.val t.body.FileKey ∧
        jOptSeq jsObjSeq ((advanceTrack s d).state.currentSong) (JOpt.val t) = true) ∧
    (((k : Int) + d < 0 ∨ (s.state.songList.items.length : Int) ≤ (k : Int) + d) →
        advanceTrack s d = s) := by
  have hmem : key ∈ s.state.songList.items.map (fun t => t.body.FileKey) := by
    apply List.indexOf_lt_length.mp
    rw [h2, List.length_map]
    exact h3
  have hidx : jsIndexOf (s.state.songList.items.map (fun t => t.body.FileKey))
      s.state.currentSongId = (k : Int) := by
    rw [h1, jsIndexOf_val_mem _ _ hmem, h2]
  constructor
  · intro t h0 hget
    have hlt : ((k : Int) + d).toNat < s.state.songList.items.length :=
      (List.get?_eq_some.mp hget).choose
    have hgeteq : s.state.songList.items.get ⟨((k : Int) + d).toNat, hlt⟩ = t := by
      have := List.get?_eq_get hlt
      rw [hget] at this
      injection this with h
      exact h.symm
    simp only [advanceTrack, hidx]
    rw [dif_pos ⟨h0, by omega⟩, ← hgeteq]
    exact setState_currentSong_commit s _
  · intro hout
    simp only [advanceTrack, hidx]
    rw [dif_neg (by omega)]

/-- Witness for C3 at a concrete three-track store: advancing from the
middle track lands on the last one, and advancing past the end is a no-op. -/
theorem advanceTrack_moves_by_direction_witness :
    ((advanceTrack advanceDemoStore 1).state.currentSongId = JOpt.val "c.mp3" ∧
      jOptSeq jsObjSeq ((advanceTrack advanceDemoStore 1).state.currentSong)
        (JOpt.val ⟨32, ⟨"C", "c.mp3", JOpt.undef, false, false⟩⟩) = true) ∧
    advanceTrack advanceDemoStore 2 = advanceDemoStore := by
  have hfirst := (advanceTrack_moves_by_direction advanceDemoStore 1 "b.mp3" 1
    (by decide) (by decide) (by decide)).1
  have hsecond := (advanceTrack_moves_by_direction advanceDemoStore 2 "b.mp3" 1
    (by decide) (by decide) (by decide)).2
  exact ⟨hfirst ⟨32, ⟨"C", "c.mp3", JOpt.undef, false, false⟩⟩ (by decide) (by decide),
    hsecond (by decide)⟩

/-- C10: when `currentSongId` is unset or matches no file key of a
non-empty song list, `advanceTrack 1` moves to the first element
(`indexOf` returns `-1`, so the target index is `0`), while
`advanceTrack (-1)` leaves the store unchanged. -/
theorem advanceTrack_when_not_found (s : Store)
    (hno : ∀ k, s.state.currentSongId = JOpt.val k →
        k ∉ s.state.songList.items.map (fun t => t.body.FileKey))
    (hne : s.state.songList.items ≠ []) :
    ((advanceTrack s 1).state.currentSongId
        = JOpt.val ((s.state.songList.items.head hne).body.FileKey) ∧
      jOptSeq jsObjSeq ((advanceTrack s 1).state.currentSong)
        (JOpt.val (s.state.songList.items.head hne)) = true) ∧
    advanceTrack s (-1) = s := by
  have hidx : jsIndexOf (s.state.songList.items.map (fun t => t.body.FileKey))
      s.state.currentSongId = -1 := by
    cases hx : s.state.currentSongId with
    | undef => rfl
    | null => rfl
    | val k => rw [jsIndexOf, if_neg (hno k hx)]
  have hlen : 0 < s.state.songList.items.length := List.length_pos.mpr hne
  constructor
  · simp only [advanceTrack, hidx]
    rw [dif_pos ⟨by omega, by omega⟩]
    have hh : s.state.songList.items.get ⟨((-1 : Int) + 1).toNat, by omega⟩ =
        s.state.songList.items.head hne := get_zero_eq_head _ _ hne
    rw [hh]
    exact setState_currentSong_commit s _
  · simp only [advanceTrack, hidx]
    rw [dif_neg (by omega)]

/-- Witness for C10: a store whose `currentSongId` is a key absent from the
song list. -/
theorem advanceTrack_when_not_found_witness :
    ((advanceTrack lostIdDemoStore 1).state.currentSongId = JOpt.val "a.mp3" ∧
      jOptSeq jsObjSeq ((advanceTrack lostIdDemoStore 1).state.currentSong)
        (JOpt.val ⟨30, ⟨"A", "a.mp3", JOpt.undef, false, false⟩⟩) = true) ∧
    advanceTrack lostIdDemoStore (-1) = lostIdDemoStore := by
  have hno : ∀ k, lostIdDemoStore.state.currentSongId = JOpt.val k →
      k ∉ lostIdDemoStore.state.songList.items.map (fun t => t.body.FileKey) := by
    intro k hk
    injection hk with h
    subst h
    decide
  exact advanceTrack_when_not_found lostIdDemoStore hno (by decide)

lemma mem_insert_middle {α : Type} (l : List α) (x a : α) (n : Nat) (h : a ∈ l) :
    a ∈ l.take n ++ [x] ++ l.drop n := by
  rcases List.mem_append.mp ((List.take_append_drop n l).symm ▸ h) with h1 | h2
  · exact List.mem_append.mpr (Or.inl (List.mem_append.mpr (Or.inl h1)))
  · exact List.mem_append.mpr (Or.inr h2)

/-- C4: the invariant "`currentSongId`, if set, is the file key of some
element of `songList`" is preserved by `advanceTrack` (for any direction)
and by `addToQueue`. -/
theorem queue_ops_preserve_current_invariant (s : Store) (d : Int) (track : Track)
    (h : CurrentInList s.state) :
    CurrentInList (advanceTrack s d).state ∧ CurrentInList (addToQueue s track).state := by
  constructor
  · simp only [advanceTrack]
    split
    · rw [setState_fst_state]
      split
      · intro k hk
        simp only [mergeState, Option.getD_some, Option.getD_none] at hk ⊢
        injection hk with hk'
        subst hk'
        exact List.mem_map_of_mem _ (List.get_mem _ _ _)
      · exact h
    · exact h
  · simp only [addToQueue]
    rw [setState_fst_state]
    split
    · intro k hk
      simp only [mergeState, Option.getD_some, Option.getD_none] at hk ⊢
      obtain ⟨t, ht, rfl⟩ := List.mem_map.mp (h k hk)
      exact List.mem_map_of_mem _ (mem_insert_middle _ _ _ _ ht)
    · exact h

/-- Witness for C4 at the concrete three-track store. -/
theorem queue_ops_preserve_current_invariant_witness :
    CurrentInList advanceDemoStore.state ∧
    CurrentInList (advanceTrack advanceDemoStore 1).state ∧
    CurrentInList (addToQueue advanceDemoStore
      ⟨33, ⟨"X", "x.mp3", JOpt.undef, false, false⟩⟩).state := by
  have hinv : CurrentInList advanceDemoStore.state := by
    intro k hk
    injection hk with h
    subst h
    decide
  have h := queue_ops_preserve_current_invariant advanceDemoStore 1
    ⟨33, ⟨"X", "x.mp3", JOpt.undef, false, false⟩⟩ hinv
  exact ⟨hinv, h.1, h.2⟩

/-- C2: `addToQueue` inserts a fresh copy of the track, tagged
`queued: true`, at the position `p` found by scanning backward from the end
of the song list down to (but not including) the current track's index:
one past the first queued entry found (so `p - 1` is queued), or at
`currentIndex + 1` when none is found; every index from `p` to the end of
the original list is unqueued. -/
theorem addToQueue_inserts_after_queued_run (s : Store) (track : Track)
    (hwf : StoreWF s) :
    ∃ p : Nat,
      (addToQueue s track).state.songList.items =
        s.state.songList.items.take p ++
          [⟨s.nextRef, { track.body with queued := true }⟩] ++
          s.state.songList.items.drop p ∧
      jsIndexOf (s.state.songList.items.map (fun t => t.body.FileKey))
          s.state.currentSongId < (p : Int) ∧
      p ≤ s.state.songList.items.length ∧
      (∀ j, p ≤ j → j < s.state.songList.items.length →
        queuedAt s.state.songList.items j = false) ∧
      ((p : Int) = jsIndexOf (s.state.songList.items.map (fun t => t.body.FileKey))
          s.state.currentSongId + 1 ∨
        queuedAt s.state.songList.items (p - 1) = true) := by
  have href : s.state.songList.ref < s.nextRef := hwf _ (by simp [stateRefs])
  have hch : ∀ L : List Track,
      hasChanges s.state { songList := some ⟨s.nextRef + 1, L⟩ } = true := by
    intro L
    simp [hasChanges, updChanged, jsArrSeq]
    omega
  have hidx1 : -1 ≤ jsIndexOf (s.state.songList.items.map (fun t => t.body.FileKey))
      s.state.currentSongId := jsIndexOf_ge_neg_one _ _
  have hidx2 : jsIndexOf (s.state.songList.items.map (fun t => t.body.FileKey))
      s.state.currentSongId < (s.state.songList.items.length : Int) := by
    have := jsIndexOf_lt_length (s.state.songList.items.map (fun t => t.body.FileKey))
      s.state.currentSongId
    rwa [List.length_map] at this
  cases hscan : scanQueuedDown s.state.songList.items
      (jsIndexOf (s.state.songList.items.map (fun t => t.body.FileKey))
        s.state.currentSongId) s.state.songList.items.length with
  | none =>
    have hnone := scanQueuedDown_none _ _ _ hscan
    refine ⟨(jsIndexOf (s.state.songList.items.map (fun t => t.body.FileKey))
        s.state.currentSongId + 1).toNat, ?_, by omega, by omega, ?_, Or.inl (by omega)⟩
    · simp only [addToQueue, hscan]
      rw [setState_fst_state]
      rw [if_pos (hch _)]
      rfl
    · intro j hj hj'
      exact hnone j hj' (by omega)
  | some i =>
    obtain ⟨ha, hb, hcq, hrest⟩ := scanQueuedDown_some _ _ _ _ hscan
    refine ⟨i + 1, ?_, by omega, by omega, ?_, Or.inr (by simpa using hcq)⟩
    · simp only [addToQueue, hscan]
      rw [setState_fst_state]
      rw [if_pos (hch _)]
      have ht : ((i : Int) + 1).toNat = i + 1 := by omega
      simp only [mergeState, Option.getD_some, ht]
    · intro j hj hj'
      exact hrest j (by omega) hj'

/-- Witness for C2, including the P4 scenario: on `[A, B, C]` with the
middle track current, queuing `x.mp3` then `y.mp3` yields
`[A, B, X, Y, C]` with exactly the two inserted copies tagged queued. -/
theorem addToQueue_inserts_after_queued_run_witness :
    StoreWF advanceDemoStore ∧
    (∃ p : Nat,
      (addToQueue advanceDemoStore
          ⟨50, ⟨"X", "x.mp3", JOpt.undef, false, false⟩⟩).state.songList.items =
        advanceDemoStore.state.songList.items.take p ++
          [⟨advanceDemoStore.nextRef,
            { Title := "X", FileKey := "x.mp3", artistFk := JOpt.undef,
              favorite := false, queued := true }⟩] ++
          advanceDemoStore.state.songList.items.drop p ∧
      jsIndexOf (advanceDemoStore.state.songList.items.map (fun t => t.body.FileKey))
          advanceDemoStore.state.currentSongId < (p : Int) ∧
      p ≤ advanceDemoStore.state.songList.items.length ∧
      (∀ j, p ≤ j → j < advanceDemoStore.state.songList.items.length →
        queuedAt advanceDemoStore.state.songList.items j = false) ∧
      ((p : Int) = jsIndexOf
          (advanceDemoStore.state.songList.items.map (fun t => t.body.FileKey))
          advanceDemoStore.state.currentSongId + 1 ∨
        queuedAt advanceDemoStore.state.songList.items (p - 1) = true)) ∧
    ((addToQueue (addToQueue advanceDemoStore
          ⟨50, ⟨"X", "x.mp3", JOpt.undef, false, false⟩⟩)
          ⟨51, ⟨"Y", "y.mp3", JOpt.undef, false, false⟩⟩).state.songList.items.map
        (fun t => (t.body.FileKey, t.body.queued))) =
      [("a.mp3", false), ("b.mp3", false), ("x.mp3", true), ("y.mp3", true),
        ("c.mp3", false)] := by
  refine ⟨by decide, ?_, by decide⟩
  exact addToQueue_inserts_after_queued_run advanceDemoStore
    ⟨50, ⟨"X", "x.mp3", JOpt.undef, false, false⟩⟩ (by decide)

lemma hasChanges_of_displayedTracks (st : State) (u : Updates)
    (h : updChanged u.displayedTracks st.displayedTracks jsArrSeq = true) :
    hasChanges st u = true := by
  rw [hasChanges, h]
  simp

lemma hasChanges_of_searchResults (st : State) (u : Updates)
    (h : updChanged u.searchResults st.searchResults (jOptSeq jsObjSeq) = true) :
    hasChanges st u = true := by
  rw [hasChanges, h]
  simp

lemma setState_detailId_of_none (s : Store) (u : Updates) (hu : u.detailId = none) :
    (setState s u).1.state.detailId = s.state.detailId := by
  rw [setState_fst_state]
  split
  · simp [mergeState, hu]
  · rfl

/-- C6: `searchByParam` is atomic — if any of the three `getSearch` calls
fails the whole call rejects with the store untouched; if all three succeed
a single `setState` commits the combined results together with the search
term and `view = "search"`. -/
theorem searchByParam_atomic (oracle : String → String → Except Unit Nat)
    (s : Store) (p : String) (hwf : StoreWF s) :
    (¬ (∃ m a al, oracle "music" p = Except.ok m ∧ oracle "artist" p = Except.ok a ∧
        oracle "album" p = Except.ok al) →
      searchByParam oracle s p = (s, Except.error ())) ∧
    (∀ m a al, oracle "music" p = Except.ok m → oracle "artist" p = Except.ok a →
      oracle "album" p = Except.ok al →
      (searchByParam oracle s p).2 = Except.ok () ∧
      (searchByParam oracle s p).1.state.searchResults
        = JOpt.val ⟨s.nextRef, ⟨m, a, al⟩⟩ ∧
      (searchByParam oracle s p).1.state.searchParam = JOpt.val p ∧
      (searchByParam oracle s p).1.state.view = "search") := by
  constructor
  · intro hne
    cases hm : oracle "music" p with
    | error e => cases e; simp only [searchByParam, hm]
    | ok m =>
      cases ha : oracle "artist" p with
      | error e => cases e; simp only [searchByParam, hm, ha]
      | ok a =>
        cases hal : oracle "album" p with
        | error e => cases e; simp only [searchByParam, hm, ha, hal]
        | ok al => exact absurd ⟨m, a, al, hm, ha, hal⟩ hne
  · intro m a al hm ha hal
    have hch : hasChanges s.state
        { searchResults := some (JOpt.val ⟨s.nextRef, ⟨m, a, al⟩⟩),
          searchParam := some (JOpt.val p),
          view := some "search" } = true := by
      apply hasChanges_of_searchResults
      cases hsr : s.state.searchResults with
      | undef => simp [updChanged, jOptSeq, hsr]
      | null => simp [updChanged, jOptSeq, hsr]
      | val o =>
        have holt : o.ref < s.nextRef := hwf o.ref (by simp [stateRefs, jOptObjRef, hsr])
        simp [updChanged, jOptSeq, jsObjSeq, hsr]
        omega
    simp only [searchByParam, hm, ha, hal]
    rw [setState_fst_state, if_pos hch]
    exact ⟨trivial, rfl, rfl, rfl⟩

/-- A concrete search oracle whose music branch fails. -/
def searchOracleFail : String → String → Except Unit Nat :=
  fun k _ => if k = "music" then Except.error () else Except.ok 0

/-- A concrete search oracle with all three branches succeeding. -/
def searchOracleOk : String → String → Except Unit Nat :=
  fun k _ => if k = "music" then Except.ok 1
    else if k = "artist" then Except.ok 2 else Except.ok 3

/-- Witness for C6: the failing oracle rejects without touching the store;
the succeeding one commits the search view. -/
theorem searchByParam_atomic_witness :
    searchByParam searchOracleFail initStore "q" = (initStore, Except.error ()) ∧
    (searchByParam searchOracleOk initStore "q").1.state.view = "search" := by
  constructor
  · refine (searchByParam_atomic searchOracleFail initStore "q" (by decide)).1 ?_
    rintro ⟨m, a, al, hm, _, _⟩
    simp [searchOracleFail] at hm
  · exact ((searchByParam_atomic searchOracleOk initStore "q" (by decide)).2
      1 2 3 rfl rfl rfl).2.2.2

/-- A store showing a banner whose displayed tracks carry no artist foreign
key. -/
def noFkBannerStore : Store where
  state := { initState with
    displayedTracks := ⟨1, [⟨5, ⟨"T", "t.mp3", JOpt.undef, false, false⟩⟩]⟩,
    banner := JOpt.val ⟨9, ⟨some ⟨1, "A"⟩, "album", "X", 3⟩⟩ }
  previousState := none
  nextRef := 10

/-- An artist-detail oracle that always returns one row. -/
def artistOracleConst : Int → Option (List ArtistRow) := fun _ => some [⟨1, "A"⟩]

/-- C7, counterexample: with no artist-bearing track, `loadBanner` returns
early without fetching, and the banner is left exactly as it was — it is
not cleared to empty or null as claimed. -/
theorem loadBanner_no_artist_counterexample :
    (∀ tr ∈ noFkBannerStore.state.displayedTracks.items,
      jsTruthyFk tr.body.artistFk = false) ∧
    loadBanner artistOracleConst noFkBannerStore "" 0 = some (noFkBannerStore, false) ∧
    noFkBannerStore.state.banner ≠ JOpt.null ∧
    noFkBannerStore.state.banner ≠ JOpt.undef := by
  exact ⟨by decide, by decide, by decide, by decide⟩

/-- C7, amended: when no displayed track bears a truthy artist foreign key,
`loadBanner` returns early without issuing the artist fetch and leaves the
store — in particular the banner — unchanged (the banner is cleared to
`null` only on the separate path where the artist fetch yields no row). -/
theorem loadBanner_no_artist_early_return (o : Int → Option (List ArtistRow))
    (s : Store) (t : String) (c : Int)
    (h : ∀ tr ∈ s.state.displayedTracks.items, jsTruthyFk tr.body.artistFk = false) :
    loadBanner o s t c = some (s, false) := by
  have hfind : s.state.displayedTracks.items.find?
      (fun f => jsTruthyFk f.body.artistFk) = none := by
    rw [List.find?_eq_none]
    intro x hx
    simp [h x hx]
  simp only [loadBanner, hfind]

/-- Witness for the amended C7. -/
theorem loadBanner_no_artist_early_return_witness :
    (∀ tr ∈ noFkBannerStore.state.displayedTracks.items,
      jsTruthyFk tr.body.artistFk = false) ∧
    loadBanner artistOracleConst noFkBannerStore "t" 5 = some (noFkBannerStore, false) :=
  ⟨by decide, loadBanner_no_artist_early_return _ _ _ _ (by decide)⟩

lemma loadBanner_detailId (o : Int → Option (List ArtistRow)) (s : Store)
    (t : String) (c : Int) (r : Store × Bool)
    (h : loadBanner o s t c = some r) : r.1.state.detailId = s.state.detailId := by
  rw [loadBanner] at h
  repeat' split at h
  all_goals
    first
      | exact Option.noConfusion h
      | (injection h with h2
         subst h2
         first
           | rfl
           | exact setState_detailId_of_none _ _ rfl)

lemma bannerFallback_detailId (aO : Int → Option (List ArtistRow)) (s1 : Store)
    (g : String) (c : Int) :
    (bannerFallback (loadBanner aO s1 g c) s1).state.detailId = s1.state.detailId := by
  cases hb : loadBanner aO s1 g c with
  | none => rfl
  | some pr => exact loadBanner_detailId _ _ _ _ _ hb

/-- The genre-detail oracle returning an empty related set. -/
def genreOracleEmpty : String → Int → GenreRes := fun _ _ => ⟨0, []⟩

/-- An artist-detail oracle with no row. -/
def artistOracleNone : Int → Option (List ArtistRow) := fun _ => none

/-- The substitution the claim describes: every `/` replaced by `*`. -/
def replaceAllSlash (s : String) : String :=
  ⟨s.data.map (fun c => if c = '/' then '*' else c)⟩

/-- C9, counterexample: on a genre key with two slashes, `loadGenre` calls
the genre-detail fetch with only the first slash substituted, not every
occurrence as claimed. -/
theorem loadGenre_slash_counterexample :
    (loadGenre genreOracleEmpty artistOracleNone initStore "rock/jazz/fusion" 1).2
      = "rock*jazz/fusion" ∧
    replaceAllSlash "rock/jazz/fusion" = "rock*jazz*fusion" ∧
    (loadGenre genreOracleEmpty artistOracleNone initStore "rock/jazz/fusion" 1).2
      ≠ replaceAllSlash "rock/jazz/fusion" := by
  exact ⟨by decide, by decide, by decide⟩

/-- C9, amended: `loadGenre` calls the genre-detail fetch with only the
first occurrence of a literal `/` in the key substituted by `*`
(percent-escaped sequences such as `%2F` are untouched, being ordinary
characters), while storing the unsubstituted key as the state's
`detailId`. -/
theorem loadGenre_replaces_first_slash (gO : String → Int → GenreRes)
    (aO : Int → Option (List ArtistRow)) (s : Store) (genre : String) (page : Int)
    (hwf : StoreWF s) :
    (loadGenre gO aO s genre page).2 = replaceFirstSlash genre ∧
    (loadGenre gO aO s genre page).1.state.detailId = JOpt.val genre := by
  have href : s.state.displayedTracks.ref < s.nextRef := hwf _ (by simp [stateRefs])
  have hch : ∀ L : List Track,
      hasChanges s.state
        { displayedTracks := some ⟨s.nextRef +
            (gO (replaceFirstSlash genre) page).records.length, L⟩,
          view := some "genre", type := some "detail",
          count := some (gO (replaceFirstSlash genre) page).count,
          page := some page,
          detailId := some (JOpt.val genre) } = true := by
    intro L
    apply hasChanges_of_displayedTracks
    simp [updChanged, jsArrSeq]
    omega
  constructor
  · rfl
  · simp only [loadGenre]
    rw [bannerFallback_detailId]
    rw [setState_fst_state, if_pos (hch _)]
    rfl

/-- Witness for the amended C9 at a one-slash key. -/
theorem loadGenre_replaces_first_slash_witness :
    StoreWF initStore ∧
    (loadGenre genreOracleEmpty artistOracleNone initStore "g/h" 1).2
      = replaceFirstSlash "g/h" ∧
    (loadGenre genreOracleEmpty artistOracleNone initStore "g/h" 1).1.state.detailId
      = JOpt.val "g/h" := by
  have h := loadGenre_replaces_first_slash genreOracleEmpty artistOracleNone
    initStore "g/h" 1 (by decide)
  exact ⟨by decide, h.1, h.2⟩

/-- C8: `parseURL` inverts `updateURL`'s hash construction — for view
`"album"`, detail id `"42"` and page 3 the hash `#album/42/3` parses back
to the same triple; for any page at most 1 the page segment is omitted and
parsing yields an undefined page. -/
theorem parseURL_updateURL_round_trip (p : Int) (hp : p ≤ 1) :
    parseURL (updateURLHash "album" (JOpt.val "42") 3) =
      ⟨"album", JOpt.val "42", JOpt.val (JsNum.int 3)⟩ ∧
    parseURL (updateURLHash "album" (JOpt.val "42") p) =
      ⟨"album", JOpt.val "42", JOpt.undef⟩ := by
  constructor
  · decide
  · have hcond : ¬(p ≠ 0 ∧ p > 1) := by omega
    have h1 : updateURLHash "album" (JOpt.val "42") p = "#album/42" := by
      simp only [updateURLHash]
      rw [if_neg hcond]
      rfl
    rw [h1]
    decide

/-- Witness for C8 at page 1. -/
theorem parseURL_updateURL_round_trip_witness :
    parseURL (updateURLHash "album" (JOpt.val "42") 3) =
      ⟨"album", JOpt.val "42", JOpt.val (JsNum.int 3)⟩ ∧
    parseURL (updateURLHash "album" (JOpt.val "42") 1) =
      ⟨"album", JOpt.val "42", JOpt.undef⟩ :=
  parseURL_updateURL_round_trip 1 (by omega)

end Skytunes
